import Mathlib

/-!
Shallow embedding of the AutoFixer issue-remediation orchestrator
(Next.js + Daytona): webhook signature verifier, issue normalizer,
in-memory run store, webhook handler pipeline, sandbox-pair provisioner,
agent runner and branch/PR publisher, translated from the TypeScript
source.  External services (HMAC, Daytona API, remote shell, GitHub API)
are modelled as explicit oracle parameters; thrown JS exceptions are
modelled with `Except`.
-/

/-! ## Signature verifier (`verifyGitHubSignature`, lib/github-webhook) -/

/-- UTF-8/ASCII bytes of a string (all strings involved are ASCII). -/
def asciiBytes (s : String) : List Nat := s.data.map Char.toNat

/-- `crypto.timingSafeEqual`: compares two byte buffers; THROWS when the
lengths differ (modelled as `.error ()`), otherwise returns equality. -/
def timingSafeEqual (a b : List Nat) : Except Unit Bool :=
  if a.length = b.length then .ok (a == b) else .error ()

/-- `verifyGitHubSignature(payload, signature, secret)`.  The HMAC-SHA256
hex digest is an external crypto primitive, passed as `hmacHex secret
payload` (its output is the 64 hex ASCII bytes).  A missing header
(`undefined`, modelled `none`) or an empty header is JS-falsy and yields
`false`; otherwise the header is compared to `"sha256=" ++ digest` with
`timingSafeEqual`, whose length-mismatch exception propagates. -/
def verifyGitHubSignature (hmacHex : List Nat → List Nat → List Nat)
    (payload : List Nat) (signature : Option (List Nat)) (secret : List Nat) :
    Except Unit Bool :=
  match signature with
  | none => .ok false
  | some sig =>
    if sig = [] then .ok false
    else timingSafeEqual sig (asciiBytes "sha256=" ++ hmacHex secret payload)

/-! ## Branch-name derivation (`createBranchAndPR`, lib/daytona) -/

/-- Characters the slug's regex class `[a-z0-9]` accepts. -/
def isSafeChar (c : Char) : Bool :=
  (('a' ≤ c && c ≤ 'z') || ('0' ≤ c && c ≤ '9'))

/-- `.replace(/[^a-z0-9]+/g, '-')`: each maximal run of characters outside
`[a-z0-9]` becomes a single hyphen.  The flag records whether we are
inside such a run. -/
def collapseAux : List Char → Bool → List Char
  | [], _ => []
  | c :: rest, inRun =>
    if isSafeChar c then c :: collapseAux rest false
    else if inRun then collapseAux rest true
    else '-' :: collapseAux rest true

def collapseNonAlnum (l : List Char) : List Char := collapseAux l false

/-- `.replace(/^-+|-+$/g, '')`: strip leading and trailing hyphen runs. -/
def stripEdgeHyphens (l : List Char) : List Char :=
  ((l.dropWhile (fun c => c = '-')).reverse.dropWhile (fun c => c = '-')).reverse

/-- The slug part: lowercase, collapse runs of unsafe characters to `-`,
strip edge hyphens, `.substring(0, 50)`. -/
def slugify (title : String) : String :=
  String.mk ((stripEdgeHyphens (collapseNonAlnum (title.data.map Char.toLower))).take 50)

/-- `` `autofix/issue-${issueNumber}-${slug}` ``. -/
def branchNameFor (issueNumber : Nat) (title : String) : String :=
  "autofix/issue-" ++ Nat.repr issueNumber ++ "-" ++ slugify title

/-! ## Run store (`InMemoryDB`, lib/db.ts) -/

inductive RunStatus
  | pending | processing | completed | failed
deriving DecidableEq

/-- `InMemoryIssue` (types/daytona.ts).  `Date` values are modelled as
natural-number timestamps. -/
structure InMemoryIssue where
  issueNumber : Nat
  repositoryName : String
  repositoryOwner : String
  title : String
  body : String
  beforeWorkspaceId : Option String
  afterWorkspaceId : Option String
  status : RunStatus
  createdAt : Nat
  updatedAt : Nat
deriving DecidableEq

/-- `Partial<InMemoryIssue>` as passed to `updateIssue` by the handler:
absent fields (`none`) leave the stored value unchanged. -/
structure IssueUpdate where
  beforeWorkspaceId : Option String
  afterWorkspaceId : Option String
  status : Option RunStatus
deriving DecidableEq

/-- The `Map<number, InMemoryIssue>` behind `InMemoryDB`, as an
association list with map semantics (at most one entry per key). -/
abbrev DB := List (Nat × InMemoryIssue)

/-- `Map.get`. -/
def dbGet (db : DB) (n : Nat) : Option InMemoryIssue :=
  (db.find? (fun p => p.1 == n)).map (fun p => p.2)

/-- `Map.set`: replace the entry if the key exists (keys are unique, so
replacing the first match suffices), else append. -/
def dbSet : DB → Nat → InMemoryIssue → DB
  | [], n, i => [(n, i)]
  | p :: rest, n, i => if p.1 == n then (n, i) :: rest else p :: dbSet rest n i

/-- `InMemoryDB.saveIssue`: unconditional `Map.set` keyed by
`issue.issueNumber` — no existence or status check. -/
def saveIssue (db : DB) (i : InMemoryIssue) : DB := dbSet db i.issueNumber i

/-- `{...issue, ...updates, updatedAt: new Date()}`: spread-merge. -/
def applyUpdate (i : InMemoryIssue) (u : IssueUpdate) (now : Nat) : InMemoryIssue :=
  { i with
    beforeWorkspaceId := u.beforeWorkspaceId <|> i.beforeWorkspaceId
    afterWorkspaceId := u.afterWorkspaceId <|> i.afterWorkspaceId
    status := u.status.getD i.status
    updatedAt := now }

/-- `InMemoryDB.updateIssue`: merge-update when the key exists, silently
do nothing otherwise. -/
def updateIssue (db : DB) (n : Nat) (u : IssueUpdate) (now : Nat) : DB :=
  match dbGet db n with
  | none => db
  | some i => dbSet db n (applyUpdate i u now)

/-! ## Webhook payload and issue normalizer (lib/github-webhook,
lib/issue-parser) -/

/-- The `issue` property of the parsed JSON body: absent (`undefined`),
JSON `null`, or an actual issue object. -/
inductive JsIssue
  | undef
  | null
  | obj (number : Nat) (title : String) (body : Option String) (htmlUrl : String)
deriving DecidableEq

structure JsRepo where
  name : String
  ownerLogin : String
  htmlUrl : String
  cloneUrl : String
  defaultBranch : String
deriving DecidableEq

structure WebhookPayload where
  action : String
  issue : JsIssue
  repository : JsRepo
deriving DecidableEq

/-- `isIssueOpenedEvent`: `payload.action === 'opened' && payload.issue
!== undefined`.  Note JSON `null` is NOT `undefined`, so it passes. -/
def isIssueOpenedEvent (p : WebhookPayload) : Bool :=
  p.action == "opened" &&
    (match p.issue with
     | .undef => false
     | _ => true)

structure ParsedIssue where
  issueNumber : Nat
  title : String
  body : String
  repositoryUrl : String
  repositoryName : String
  repositoryOwner : String
  cloneUrl : String
  defaultBranch : String
  issueUrl : String
deriving DecidableEq

/-- `parseIssue` reads `payload.issue.number` etc.; on a `null` issue the
property access throws a `TypeError` (modelled as `.error`).  The handler
dereferences `payload.issue.number` in a log line before calling
`parseIssue`, so the throw is observed at the same place either way. -/
def parseIssue (p : WebhookPayload) : Except String ParsedIssue :=
  match p.issue with
  | .obj n t b u =>
    .ok ⟨n, t, b.getD "", p.repository.htmlUrl, p.repository.name,
      p.repository.ownerLogin, p.repository.cloneUrl, p.repository.defaultBranch, u⟩
  | _ => .error "TypeError"

/-- `validateParsedIssue`. -/
def validateParsedIssue (i : ParsedIssue) : Bool :=
  decide (0 < i.issueNumber) && decide (0 < i.title.length) &&
  decide (0 < i.repositoryName.length) && decide (0 < i.repositoryOwner.length) &&
  decide (0 < i.cloneUrl.length)

/-! ## Webhook handler pipeline (pages/api/github-webhook handler) -/

structure PreviewInfo where
  url : String
  token : String
deriving DecidableEq

structure Workspace where
  id : String
  name : String
deriving DecidableEq

structure SandboxPair where
  before : Workspace
  after : Workspace
deriving DecidableEq

structure PRResult where
  branchName : String
  prUrl : String
  prNumber : Nat
deriving DecidableEq

/-- Environment variables read by the handler. -/
structure HandlerEnv where
  webhookSecret : Option String
  daytonaApiKey : Option String
  daytonaApiUrl : Option String
  anthropicApiKey : Option String
  githubToken : Option String
deriving DecidableEq

/-- Outcomes of the remote calls the handler awaits, in order; `.error`
models the awaited promise rejecting (a thrown exception). -/
structure PipelineOracle where
  createPair : Except String SandboxPair
  setupBefore : Except String Unit
  runClaude : Except String String
  setupAfter : Except String Unit
  previewBefore : Except String PreviewInfo
  previewAfter : Except String PreviewInfo
  createPR : Except String PRResult

/-- Remote side effects the handler triggers, in order of issuance. -/
inductive Effect
  | createPair
  | setupApp (afterSandbox : Bool)
  | runClaude
  | getPreview (afterSandbox : Bool)
  | createPR
deriving DecidableEq

/-- HTTP responses of the handler. -/
inductive HandlerResponse
  | methodNotAllowed
  | serverError (msg : String)
  | unauthorized
  | ignored
  | invalidIssue
  | success
deriving DecidableEq

structure HandlerResult where
  response : HandlerResponse
  db : DB
  effects : List Effect
deriving DecidableEq

/-- The fresh record the handler stores (`status: 'pending'`). -/
def freshRecord (pi : ParsedIssue) (now : Nat) : InMemoryIssue :=
  ⟨pi.issueNumber, pi.repositoryName, pi.repositoryOwner, pi.title, pi.body,
    none, none, .pending, now, now⟩

/-- The webhook handler (the Orchestrator), from the POST/secret/signature
gates through the pipeline to the final store update.  `sigValid` is the
result of `verifyGitHubSignature` on the raw body; errors thrown by any
awaited stage fall to the outer `catch`, which returns a 500 WITHOUT
touching the store; a `createBranchAndPR` failure is caught inline and
execution continues. -/
def handler (env : HandlerEnv) (methodPost : Bool) (sigValid : Bool)
    (payload : WebhookPayload) (o : PipelineOracle) (db : DB) (now : Nat) :
    HandlerResult :=
  if !methodPost then ⟨.methodNotAllowed, db, []⟩
  else match env.webhookSecret with
  | none => ⟨.serverError "Server configuration error", db, []⟩
  | some _ =>
    if !sigValid then ⟨.unauthorized, db, []⟩
    else if !isIssueOpenedEvent payload then ⟨.ignored, db, []⟩
    else match parseIssue payload with
    | .error e => ⟨.serverError e, db, []⟩
    | .ok pi =>
      if !validateParsedIssue pi then ⟨.invalidIssue, db, []⟩
      else
        let db1 := saveIssue db (freshRecord pi now)
        match env.daytonaApiKey with
        | none =>
          ⟨.serverError "Daytona API key not configured",
            updateIssue db1 pi.issueNumber ⟨none, none, some .failed⟩ now, []⟩
        | some _ =>
        match env.anthropicApiKey with
        | none =>
          ⟨.serverError "Anthropic API key not configured",
            updateIssue db1 pi.issueNumber ⟨none, none, some .failed⟩ now, []⟩
        | some _ =>
          let db2 := updateIssue db1 pi.issueNumber ⟨none, none, some .processing⟩ now
          match o.createPair with
          | .error e => ⟨.serverError e, db2, [.createPair]⟩
          | .ok pair =>
          match o.setupBefore with
          | .error e => ⟨.serverError e, db2, [.createPair, .setupApp false]⟩
          | .ok _ =>
          match o.runClaude with
          | .error e =>
            ⟨.serverError e, db2, [.createPair, .setupApp false, .runClaude]⟩
          | .ok _ =>
          match o.setupAfter with
          | .error e =>
            ⟨.serverError e, db2,
              [.createPair, .setupApp false, .runClaude, .setupApp true]⟩
          | .ok _ =>
          match o.previewBefore with
          | .error e =>
            ⟨.serverError e, db2,
              [.createPair, .setupApp false, .runClaude, .setupApp true,
                .getPreview false]⟩
          | .ok _ =>
          match o.previewAfter with
          | .error e =>
            ⟨.serverError e, db2,
              [.createPair, .setupApp false, .runClaude, .setupApp true,
                .getPreview false, .getPreview true]⟩
          | .ok _ =>
            let effs :=
              [Effect.createPair, .setupApp false, .runClaude, .setupApp true,
                .getPreview false, .getPreview true]
            let done := fun (es : List Effect) =>
              HandlerResult.mk .success
                (updateIssue db2 pi.issueNumber
                  ⟨some pair.before.id, some pair.after.id, some .completed⟩ now)
                es
            match env.githubToken with
            | none => done effs
            | some _ =>
              match o.createPR with
              | .error _ => done (effs ++ [.createPR])
              | .ok _ => done (effs ++ [.createPR])

/-! ## Environment provisioner (`DaytonaClient.createSandboxPair`,
lib/daytona) -/

def CLAUDE_SNAPSHOT_NAME : String := "claude-code-bugfixer:1.0.0"

/-- The options object passed to `daytona.create` by
`createAndSetupSandbox`. -/
structure CreateOptions where
  name : String
  labels : List (String × String)
  «public» : Bool
  snapshot : Option String
  envVars : List (String × String)
deriving DecidableEq

/-- `createAndSetupSandbox`'s construction of the creation options:
`public` is hard-coded `true`; the snapshot is used when requested; the
Anthropic key becomes an env var only when provided together with the
snapshot. -/
def buildCreateOptions (name : String) (labels : List (String × String))
    (useClaudeSnapshot : Bool) (anthropicApiKey : Option String) : CreateOptions :=
  { name := name
    labels := labels
    «public» := true
    snapshot := if useClaudeSnapshot then some CLAUDE_SNAPSHOT_NAME else none
    envVars :=
      if useClaudeSnapshot then
        match anthropicApiKey with
        | some k => [("ANTHROPIC_API_KEY", k)]
        | none => []
      else [] }

/-- Labels attached to each sandbox of the pair. -/
def labelsFor (issue : ParsedIssue) (role : String) : List (String × String) :=
  [("issueNumber", Nat.repr issue.issueNumber),
   ("repository", issue.repositoryName),
   ("repositoryOwner", issue.repositoryOwner),
   ("type", role)]

/-- A created sandbox as `createAndSetupSandbox` returns it. -/
structure CreatedSandbox where
  id : String
  name : String
deriving DecidableEq

structure SandboxPairResult where
  before : CreatedSandbox
  after : CreatedSandbox
deriving DecidableEq

/-- Options for the BEFORE sandbox: snapshot, no Anthropic key. -/
def beforeOptionsFor (issue : ParsedIssue) (timestamp : Nat) : CreateOptions :=
  buildCreateOptions
    ("issue-" ++ Nat.repr issue.issueNumber ++ "-before-" ++ Nat.repr timestamp)
    (labelsFor issue "before") true none

/-- Options for the AFTER sandbox: snapshot plus the Anthropic key. -/
def afterOptionsFor (issue : ParsedIssue) (anthropicApiKey : String)
    (timestamp : Nat) : CreateOptions :=
  buildCreateOptions
    ("issue-" ++ Nat.repr issue.issueNumber ++ "-after-" ++ Nat.repr timestamp)
    (labelsFor issue "after") true (some anthropicApiKey)

/-- `createSandboxPair`: BEFORE then AFTER, sequentially; `create` is the
external `createAndSetupSandbox` effect (create + clone + preview) keyed
by the options it is given; the second component of the result is the
trace of creation attempts.  A failure is rethrown as-is (the
`catch (error) ... throw error` keeps the error unchanged), so the error
branch carries nothing but the error. -/
def createSandboxPair (create : CreateOptions → Except String CreatedSandbox)
    (issue : ParsedIssue) (anthropicApiKey : String) (timestamp : Nat) :
    Except String SandboxPairResult × List CreateOptions :=
  let beforeOpts := beforeOptionsFor issue timestamp
  match create beforeOpts with
  | .error e => (.error e, [beforeOpts])
  | .ok wb =>
    let afterOpts := afterOptionsFor issue anthropicApiKey timestamp
    match create afterOpts with
    | .error e => (.error e, [beforeOpts, afterOpts])
    | .ok wa => (.ok ⟨wb, wa⟩, [beforeOpts, afterOpts])

/-- What the caller of `createSandboxPair` receives: on success the two
handles, on a thrown error nothing at all. -/
def surfacedSandboxes : Except String SandboxPairResult → List CreatedSandbox
  | .ok p => [p.before, p.after]
  | .error _ => []

/-! ## Agent runner (`DaytonaClient.runClaudeCodeInSandbox`,
lib/daytona) -/

structure CommandResult where
  exitCode : Int
  result : String
deriving DecidableEq

/-- Remote commands the agent runner issues, in order. -/
inductive AgentEffect
  | chownClaude
  | execClaude
  | chownRoot
deriving DecidableEq

/-- Outcomes of the agent runner's remote calls. -/
structure AgentOracle where
  chownClaudeOk : Bool
  claudeExec : Except String CommandResult
  chownRootOk : Bool

/-- The value `runClaudeCodeInSandbox` returns: either the JSON payload
parsed out of the output, or the degraded object
`{result: rawOutput, warning: ..., exitCode}`. -/
inductive AgentOutcome (α : Type)
  | parsed (v : α)
  | degraded (raw : String) (warning : String) (exitCode : Int)
deriving DecidableEq

/-- The regex `/\x7b[\s\S]*\x7d/` (greedy): the span from the first
opening brace to the last closing brace after it, if any. -/
def extractBraceSpan (s : List Char) : Option (List Char) :=
  let rest := s.dropWhile (fun c => c ≠ '{')
  match rest with
  | [] => none
  | _ =>
    let core := (rest.reverse.dropWhile (fun c => c ≠ '}')).reverse
    match core with
    | [] => none
    | _ => some core

/-- Result parsing in `runClaudeCodeInSandbox`: extract the brace span,
`JSON.parse` it (external, modelled by `jsonParse`); on a missing span or
a parse failure return the degraded object carrying the FULL raw output
and the warning flag. -/
def parseClaudeOutput {α : Type} (jsonParse : String → Option α)
    (r : CommandResult) : AgentOutcome α :=
  match extractBraceSpan r.result.data with
  | some span =>
    match jsonParse (String.mk span) with
    | some v => .parsed v
    | none => .degraded r.result "Could not parse JSON response" r.exitCode
  | none => .degraded r.result "Could not parse JSON response" r.exitCode

/-- `runClaudeCodeInSandbox`: chown the repo to the claude user (failure
swallowed), execute the agent command (a thrown error is RETHROWN at once
— the ownership revert below is then never reached), parse the output
(never throws), then chown back to root (failure swallowed).  The second
component is the trace of issued remote commands. -/
def runClaudeCodeInSandbox {α : Type} (o : AgentOracle)
    (jsonParse : String → Option α) :
    Except String (AgentOutcome α) × List AgentEffect :=
  match o.claudeExec with
  | .error e => (.error e, [.chownClaude, .execClaude])
  | .ok r =>
    (.ok (parseClaudeOutput jsonParse r), [.chownClaude, .execClaude, .chownRoot])

/-! ## Publisher (`DaytonaClient.createBranchAndPR`, lib/daytona) -/

/-- Steps the publisher performs inside the AFTER sandbox, in order. -/
inductive GitStep
  | configUser
  | checkoutDefault
  | fetchOrigin
  | gitStatus
  | checkoutBranch (name : String)
  | addAll
  | commit (msg : String)
  | setRemote
  | push (branch : String)
  | diffStat
  | uploadScript
  | runScript (body : String)
deriving DecidableEq

/-- Outcomes of the publisher's remote calls.  `statusResult` is the
stdout of `git status --short`; `runScript` is the stdout of the PR
creation script. -/
structure PublishOracle where
  configUser : Except String Unit
  checkoutDefault : Except String Unit
  fetchOrigin : Except String Unit
  checkoutDefaultRetry : Except String Unit
  statusResult : Except String String
  checkoutBranch : Except String Unit
  addAll : Except String Unit
  commit : Except String Unit
  setRemote : Except String Unit
  push : Except String Unit
  diffStat : Except String String
  uploadScript : Except String Unit
  runScript : Except String String

/-- JS `String.prototype.trim`: strip whitespace from both ends. -/
def jsTrim (s : String) : String :=
  String.mk (((s.data.dropWhile Char.isWhitespace).reverse.dropWhile
    Char.isWhitespace).reverse)

/-- The commit message (`git commit -m`), which references the issue
number (`Fixes #N`). -/
def commitMessageFor (issueNumber : Nat) (issueTitle : String) : String :=
  "AutoFix: " ++ issueTitle ++ "\n\nFixes #" ++ Nat.repr issueNumber ++
    "\n\nThis PR was automatically generated by AutoFixer."

/-- The summary placed in the PR body when the working tree had no
changes. -/
def noChangesSummary : String :=
  "No code changes detected. This PR was created to track the issue resolution process."

/-- PR body text before the changes summary. -/
def prBodyPre (issueNumber : Nat) : String :=
  "## 🤖 AutoFixer Pull Request\n\nThis PR was automatically generated to address issue #" ++
    Nat.repr issueNumber ++ ".\n\n### 📋 Summary of Changes\n\n```\n"

/-- PR body text after the changes summary: preview links and the
`Closes #N` reference. -/
def prBodyPost (issueNumber : Nat)
    (beforeUrl beforeTok afterUrl afterTok : String) : String :=
  "\n```\n\n### 🔗 Preview Sandboxes\n\n**🔴 BEFORE Sandbox (Original State)**\n- Preview URL: " ++
    beforeUrl ++ "\n- Access Token: `" ++ beforeTok ++
    "`\n- Access with: `curl -H \"x-daytona-preview-token: " ++ beforeTok ++
    "\" " ++ beforeUrl ++
    "`\n\n**🟢 AFTER Sandbox (With Fixes Applied)**\n- Preview URL: " ++
    afterUrl ++ "\n- Access Token: `" ++ afterTok ++
    "`\n- Access with: `curl -H \"x-daytona-preview-token: " ++ afterTok ++
    "\" " ++ afterUrl ++ "`\n\n### 📝 Issue\nCloses #" ++
    Nat.repr issueNumber ++
    "\n\n---\n*This PR was automatically created by AutoFixer. Please review the changes and sandbox previews before merging.*\n"

/-- The PR body the generated script sends to the hosting provider. -/
def prBodyFor (issueNumber : Nat) (changesSummary : String)
    (beforeUrl beforeTok afterUrl afterTok : String) : String :=
  prBodyPre issueNumber ++ changesSummary ++
    prBodyPost issueNumber beforeUrl beforeTok afterUrl afterTok

/-- `createBranchAndPR`: configure identity, check out the default branch
(one retry after a fetch), snapshot `git status --short`, create the
branch, stage+commit only when changes exist, set the remote and push,
compute a best-effort diff summary, upload and run the PR-creation
script, and parse its JSON output (a parse failure throws
`Failed to create PR`).  Returns the result, the trace of steps issued,
in order. -/
def createBranchAndPR (o : PublishOracle) (prParse : String → Option PRResult)
    (issueNumber : Nat) (issueTitle : String) (defaultBranch : String)
    (beforeUrl afterUrl beforeTok afterTok : String) :
    Except String PRResult × List GitStep :=
  let branchName := branchNameFor issueNumber issueTitle
  match o.configUser with
  | .error e => (.error e, [.configUser])
  | .ok _ =>
  -- try checkout; on failure fetch then retry (second failure aborts)
  let afterCheckout : Except (String × List GitStep) (List GitStep) :=
    match o.checkoutDefault with
    | .ok _ => .ok [.configUser, .checkoutDefault]
    | .error _ =>
      match o.fetchOrigin with
      | .error e => .error (e, [.configUser, .checkoutDefault, .fetchOrigin])
      | .ok _ =>
        match o.checkoutDefaultRetry with
        | .error e =>
          .error (e, [.configUser, .checkoutDefault, .fetchOrigin, .checkoutDefault])
        | .ok _ => .ok [.configUser, .checkoutDefault, .fetchOrigin, .checkoutDefault]
  match afterCheckout with
  | .error (e, tr) => (.error e, tr)
  | .ok steps0 =>
  match o.statusResult with
  | .error e => (.error e, steps0 ++ [.gitStatus])
  | .ok statusOut =>
  let hasChanges := jsTrim statusOut ≠ ""
  match o.checkoutBranch with
  | .error e => (.error e, steps0 ++ [.gitStatus, .checkoutBranch branchName])
  | .ok _ =>
  let steps1 := steps0 ++ [.gitStatus, .checkoutBranch branchName]
  let commitPhase : Except (String × List GitStep) (List GitStep) :=
    if hasChanges then
      match o.addAll with
      | .error e => .error (e, steps1 ++ [.addAll])
      | .ok _ =>
        match o.commit with
        | .error e =>
          .error (e, steps1 ++
            [.addAll, .commit (commitMessageFor issueNumber issueTitle)])
        | .ok _ =>
          .ok (steps1 ++ [.addAll, .commit (commitMessageFor issueNumber issueTitle)])
    else .ok steps1
  match commitPhase with
  | .error (e, tr) => (.error e, tr)
  | .ok steps2 =>
  match o.setRemote with
  | .error e => (.error e, steps2 ++ [.setRemote])
  | .ok _ =>
  match o.push with
  | .error e => (.error e, steps2 ++ [.setRemote, .push branchName])
  | .ok _ =>
  let steps3 := steps2 ++ [.setRemote, .push branchName]
  -- diff summary: best effort, degrades to placeholders
  let summaryPhase : String × List GitStep :=
    if hasChanges then
      match o.diffStat with
      | .ok d =>
        (if d = "" then "Changes made (see diff)" else d, steps3 ++ [.diffStat])
      | .error _ =>
        ("Changes made (unable to generate diff summary)", steps3 ++ [.diffStat])
    else (noChangesSummary, steps3)
  let changesSummary := summaryPhase.1
  let steps4 := summaryPhase.2
  let body := prBodyFor issueNumber changesSummary beforeUrl beforeTok afterUrl afterTok
  match o.uploadScript with
  | .error e => (.error e, steps4 ++ [.uploadScript])
  | .ok _ =>
  match o.runScript with
  | .error e => (.error e, steps4 ++ [.uploadScript, .runScript body])
  | .ok out =>
  let steps5 := steps4 ++ [.uploadScript, .runScript body]
  match extractBraceSpan out.data with
  | none => (.error "Failed to create PR", steps5)
  | some span =>
    match prParse (String.mk span) with
    | none => (.error "Failed to create PR", steps5)
    | some pr => (.ok pr, steps5)

/-! ## Concrete fixtures used by counterexamples and witnesses -/

def repoX : JsRepo := ⟨"repo", "owner", "http://r", "http://clone", "main"⟩

def payloadX : WebhookPayload :=
  ⟨"opened", .obj 5 "Crash" (some "boom") "http://issue", repoX⟩

def payloadNullIssueX : WebhookPayload := ⟨"opened", .null, repoX⟩

def payloadClosedX : WebhookPayload :=
  ⟨"closed", .obj 5 "Crash" (some "boom") "http://issue", repoX⟩

def parsedIssueX : ParsedIssue :=
  ⟨5, "Crash", "boom", "http://r", "repo", "owner", "http://clone", "main",
   "http://issue"⟩

def envX : HandlerEnv := ⟨some "sec", some "dk", some "du", some "ak", some "gt"⟩

def pairX : SandboxPair := ⟨⟨"bid", "bname"⟩, ⟨"aid", "aname"⟩⟩

def oracleOkX : PipelineOracle :=
  ⟨.ok pairX, .ok (), .ok "out", .ok (), .ok ⟨"bu", "bt"⟩, .ok ⟨"au", "at"⟩,
   .ok ⟨"br", "pu", 1⟩⟩

def oracleAgentFailX : PipelineOracle :=
  ⟨.ok pairX, .ok (), .error "timeout", .ok (), .ok ⟨"bu", "bt"⟩,
   .ok ⟨"au", "at"⟩, .ok ⟨"br", "pu", 1⟩⟩

def oraclePRFailX : PipelineOracle :=
  ⟨.ok pairX, .ok (), .ok "out", .ok (), .ok ⟨"bu", "bt"⟩, .ok ⟨"au", "at"⟩,
   .error "bad credentials"⟩

/-- A stored record for issue 5 still in the non-terminal `processing`
status, created at an earlier time. -/
def oldRecX : InMemoryIssue :=
  ⟨5, "repo", "owner", "Crash", "boom", none, none, .processing, 10, 10⟩

instance {ε α : Type} [DecidableEq ε] [DecidableEq α] :
    DecidableEq (Except ε α) := fun x y =>
  match x, y with
  | .ok a, .ok b =>
    if h : a = b then isTrue (by rw [h])
    else isFalse (by intro hc; injection hc; contradiction)
  | .error a, .error b =>
    if h : a = b then isTrue (by rw [h])
    else isFalse (by intro hc; injection hc; contradiction)
  | .ok _, .error _ => isFalse (fun hc => Except.noConfusion hc)
  | .error _, .ok _ => isFalse (fun hc => Except.noConfusion hc)

/-- A provisioner that succeeds on the BEFORE options (they carry no env
vars) and rejects the AFTER creation. -/
def createAfterFailsX : CreateOptions → Except String CreatedSandbox :=
  fun o => if o.envVars = [] then .ok ⟨"before-id", "before-name"⟩
           else .error "boom"

def createOkX : CreateOptions → Except String CreatedSandbox :=
  fun o => .ok ⟨"id-" ++ o.name, o.name⟩

def jsonNoneX : String → Option Unit := fun _ => none

def agentFailOracleX : AgentOracle := ⟨true, .error "timeout", true⟩

def agentOkOracleX : AgentOracle :=
  ⟨true, .ok ⟨0, "plain output without payload"⟩, true⟩

def prX : PRResult := ⟨"branch", "url", 1⟩

def prParseX : String → Option PRResult :=
  fun s => if s = "\x7bok\x7d" then some prX else none

/-- Publisher oracle: every remote call succeeds, `git status --short`
reports nothing. -/
def publishNoChangesX : PublishOracle :=
  ⟨.ok (), .ok (), .ok (), .ok (), .ok "", .ok (), .ok (), .ok (), .ok (),
   .ok (), .ok "diff", .ok (), .ok "\x7bok\x7d"⟩

/-- Publisher oracle: every remote call succeeds, `git status --short`
reports a modified file. -/
def publishChangesX : PublishOracle :=
  ⟨.ok (), .ok (), .ok (), .ok (), .ok " M file.ts\n", .ok (), .ok (), .ok (),
   .ok (), .ok (), .ok "diff", .ok (), .ok "\x7bok\x7d"⟩

/-! ## Theorems -/

theorem collapseAux_chars (l : List Char) (b : Bool) :
    ∀ c ∈ collapseAux l b, isSafeChar c = true ∨ c = '-' := by
  induction l generalizing b with
  | nil => intro c hc; simp [collapseAux] at hc
  | cons a rest ih =>
    intro c hc
    by_cases ha : isSafeChar a
    · simp [collapseAux, ha] at hc
      rcases hc with h | h
      · exact Or.inl (h ▸ ha)
      · exact ih false c h
    · by_cases hb : b
      · simp [collapseAux, ha, hb] at hc
        exact ih true c hc
      · simp [collapseAux, ha, hb] at hc
        rcases hc with h | h
        · exact Or.inr h
        · exact ih true c h

theorem stripEdgeHyphens_subset (l : List Char) :
    ∀ c ∈ stripEdgeHyphens l, c ∈ l := by
  intro c hc
  unfold stripEdgeHyphens at hc
  rw [List.mem_reverse] at hc
  have h1 := (List.dropWhile_sublist (l := (l.dropWhile (fun c => c = '-')).reverse)
    (p := fun c => c = '-')).mem hc
  rw [List.mem_reverse] at h1
  exact (List.dropWhile_sublist (p := fun c => c = '-')).mem h1

theorem slugify_chars (title : String) :
    ∀ c ∈ (slugify title).data, isSafeChar c = true ∨ c = '-' := by
  intro c hc
  unfold slugify at hc
  simp only [String.mk] at hc
  have h1 : c ∈ stripEdgeHyphens (collapseNonAlnum (title.data.map Char.toLower)) :=
    (List.take_sublist _ _).mem hc
  have h2 := stripEdgeHyphens_subset _ c h1
  exact collapseAux_chars _ false c h2

theorem slugify_length (title : String) : (slugify title).length ≤ 50 := by
  unfold slugify String.length
  simp [List.length_take]

/-- C7: branch-name derivation is a deterministic total function of the
issue number and title; it always has the form
`autofix/issue-<number>-<slug>`, the slug holds only lowercase ASCII
alphanumerics and hyphens, the slug is truncated to at most 50
characters, and issue #42 titled "Button not clickable" yields
`autofix/issue-42-button-not-clickable`. -/
theorem branch_name_safe_bounded (issueNumber : Nat) (title : String) :
    branchNameFor issueNumber title =
      "autofix/issue-" ++ Nat.repr issueNumber ++ "-" ++ slugify title
    ∧ (slugify title).length ≤ 50
    ∧ (∀ c ∈ (slugify title).data, isSafeChar c = true ∨ c = '-')
    ∧ branchNameFor 42 "Button not clickable" =
        "autofix/issue-42-button-not-clickable" :=
  ⟨rfl, slugify_length title, slugify_chars title, by decide⟩

/-- C7 witness: the slug of a unicode, over-long, symbol-laden title is
bounded and its characters are safe; proved by applying
`branch_name_safe_bounded` at that concrete title. -/
theorem branch_name_safe_bounded_witness :
    (slugify "Füx the Büttön!!! it does not click -- REALLY not at all, extremely annoying issue report").length ≤ 50
    ∧ (isSafeChar 'x' = true ∨ 'x' = '-') :=
  ⟨(branch_name_safe_bounded 7 "Füx the Büttön!!! it does not click -- REALLY not at all, extremely annoying issue report").2.1,
   (branch_name_safe_bounded 7 "Füx the Büttön!!! it does not click -- REALLY not at all, extremely annoying issue report").2.2.1
     'x' (by decide)⟩

theorem sigPrefix_ne_nil : asciiBytes "sha256=" ≠ [] := by decide

theorem sigPrefix_length : (asciiBytes "sha256=").length = 7 := by decide

/-- C2 counterexample: `verifyGitHubSignature` does NOT always return a
boolean: a well-formed call with a 1-byte signature header reaches
`crypto.timingSafeEqual` with buffers of different lengths, which throws
(`.error`).  The HMAC primitive is instantiated with a function returning
a 64-byte hex digest, as SHA-256 always does; the throw is independent of
the digest's value. -/
theorem verify_throws_on_short_header :
    verifyGitHubSignature (fun _ _ => List.replicate 64 97)
      (asciiBytes "body") (some (asciiBytes "x")) (asciiBytes "secret") =
      .error () := rfl

/-- C2 (amended): with any HMAC whose hex digest has 64 bytes,
`verifyGitHubSignature` returns `false` on a missing or empty header,
`true` on the exact `sha256=`-prefixed digest of the body, `false` on any
same-length corruption of the signature, and `false` on any corruption of
the body that changes the digest — but a non-empty header whose byte
length differs from the 71-byte digest string makes
`crypto.timingSafeEqual` throw instead of returning a boolean. -/
theorem verify_characterization (hmacHex : List Nat → List Nat → List Nat)
    (secret payload : List Nat)
    (hlen : (hmacHex secret payload).length = 64) :
    verifyGitHubSignature hmacHex payload none secret = .ok false
    ∧ verifyGitHubSignature hmacHex payload
        (some (asciiBytes "sha256=" ++ hmacHex secret payload)) secret = .ok true
    ∧ (∀ sig, sig.length = 71 →
        sig ≠ asciiBytes "sha256=" ++ hmacHex secret payload →
        verifyGitHubSignature hmacHex payload (some sig) secret = .ok false)
    ∧ (∀ payload2, (hmacHex secret payload2).length = 64 →
        hmacHex secret payload2 ≠ hmacHex secret payload →
        verifyGitHubSignature hmacHex payload2
          (some (asciiBytes "sha256=" ++ hmacHex secret payload)) secret = .ok false)
    ∧ (∀ sig, sig ≠ [] → sig.length ≠ 71 →
        verifyGitHubSignature hmacHex payload (some sig) secret = .error ()) := by
  refine ⟨rfl, ?_, ?_, ?_, ?_⟩
  · have hne : asciiBytes "sha256=" ++ hmacHex secret payload ≠ [] := by
      intro h
      exact sigPrefix_ne_nil (List.append_eq_nil.mp h).1
    simp [verifyGitHubSignature, timingSafeEqual, hne]
  · intro sig h71 hneq
    have hne : sig ≠ [] := by
      intro h; rw [h] at h71; simp at h71
    have hlens : sig.length =
        (asciiBytes "sha256=" ++ hmacHex secret payload).length := by
      rw [List.length_append, sigPrefix_length, hlen, h71]
    simp [verifyGitHubSignature, timingSafeEqual, hne, hlens, hneq]
  · intro payload2 hlen2 hneq
    have hne : asciiBytes "sha256=" ++ hmacHex secret payload ≠ [] := by
      intro h
      exact sigPrefix_ne_nil (List.append_eq_nil.mp h).1
    have hlens : (asciiBytes "sha256=" ++ hmacHex secret payload).length =
        (asciiBytes "sha256=" ++ hmacHex secret payload2).length := by
      rw [List.length_append, List.length_append, hlen, hlen2]
    have hneq2 : asciiBytes "sha256=" ++ hmacHex secret payload ≠
        asciiBytes "sha256=" ++ hmacHex secret payload2 := by
      intro h
      exact hneq (List.append_cancel_left h).symm
    simp [verifyGitHubSignature, timingSafeEqual, hne, hlens, hneq2]
  · intro sig hne h71
    have hlens : ¬ sig.length =
        (asciiBytes "sha256=").length + (hmacHex secret payload).length := by
      rw [sigPrefix_length, hlen]
      exact h71
    simp [verifyGitHubSignature, timingSafeEqual, hne, hlens]

/-- C2 witness: `verify_characterization` applied at a concrete HMAC
(constant 64-byte digest), body, secret and headers. -/
theorem verify_characterization_witness :
    verifyGitHubSignature (fun _ _ => List.replicate 64 97)
      (asciiBytes "body") none (asciiBytes "secret") = .ok false
    ∧ verifyGitHubSignature (fun _ _ => List.replicate 64 97)
        (asciiBytes "body")
        (some (asciiBytes "sha256=" ++ List.replicate 64 97))
        (asciiBytes "secret") = .ok true
    ∧ verifyGitHubSignature (fun _ _ => List.replicate 64 97)
        (asciiBytes "body") (some (asciiBytes "xy")) (asciiBytes "secret") =
        .error () :=
  ⟨(verify_characterization (fun _ _ => List.replicate 64 97)
      (asciiBytes "secret") (asciiBytes "body") (by decide)).1,
   (verify_characterization (fun _ _ => List.replicate 64 97)
      (asciiBytes "secret") (asciiBytes "body") (by decide)).2.1,
   (verify_characterization (fun _ _ => List.replicate 64 97)
      (asciiBytes "secret") (asciiBytes "body") (by decide)).2.2.2.2
     (asciiBytes "xy") (by decide) (by decide)⟩

theorem dbGet_dbSet_self (db : DB) (n : Nat) (i : InMemoryIssue) :
    dbGet (dbSet db n i) n = some i := by
  induction db with
  | nil => simp [dbGet, dbSet, List.find?]
  | cons p rest ih =>
    by_cases h : p.1 = n
    · simp [dbSet, h, dbGet, List.find?]
    · have hb : (p.1 == n) = false := by simp [h]
      simp only [dbSet, hb, Bool.false_eq_true, if_false]
      simpa [dbGet, List.find?, hb] using ih

theorem dbGet_updateIssue_of_get (db : DB) (n : Nat) (i : InMemoryIssue)
    (u : IssueUpdate) (now : Nat) (h : dbGet db n = some i) :
    dbGet (updateIssue db n u now) n = some (applyUpdate i u now) := by
  simp [updateIssue, h, dbGet_dbSet_self]

/-- The record the pipeline leaves in the store on a fully successful run:
the freshly saved record, then status `processing`, then the two sandbox
ids and status `completed` (all with the same modelled timestamp). -/
theorem handler_success_record (db : DB) (pi : ParsedIssue)
    (pair : SandboxPair) (now : Nat) :
    dbGet (updateIssue
      (updateIssue (saveIssue db (freshRecord pi now)) pi.issueNumber
        ⟨none, none, some .processing⟩ now)
      pi.issueNumber ⟨some pair.before.id, some pair.after.id, some .completed⟩ now)
      pi.issueNumber =
    some ⟨pi.issueNumber, pi.repositoryName, pi.repositoryOwner, pi.title, pi.body,
      some pair.before.id, some pair.after.id, .completed, now, now⟩ := by
  have h1 : dbGet (saveIssue db (freshRecord pi now)) pi.issueNumber =
      some (freshRecord pi now) := dbGet_dbSet_self db pi.issueNumber _
  have h2 := dbGet_updateIssue_of_get _ _ _
    (⟨none, none, some .processing⟩ : IssueUpdate) now h1
  have h3 := dbGet_updateIssue_of_get _ _ _
    (⟨some pair.before.id, some pair.after.id, some .completed⟩ : IssueUpdate) now h2
  simpa [freshRecord, applyUpdate] using h3

/-- Reduction of the handler on a fully successful pipeline run. -/
theorem handler_success_eq (env : HandlerEnv) (payload : WebhookPayload)
    (o : PipelineOracle) (db : DB) (now : Nat) (pi : ParsedIssue)
    (pair : SandboxPair) (sk dk ak gt s : String)
    (pb pa : PreviewInfo)
    (hsec : env.webhookSecret = some sk)
    (hdk : env.daytonaApiKey = some dk)
    (hak : env.anthropicApiKey = some ak)
    (hgt : env.githubToken = some gt)
    (hopen : isIssueOpenedEvent payload = true)
    (hparse : parseIssue payload = .ok pi)
    (hvalid : validateParsedIssue pi = true)
    (hcp : o.createPair = .ok pair)
    (hsb : o.setupBefore = .ok ())
    (hrc : o.runClaude = .ok s)
    (hsa : o.setupAfter = .ok ())
    (hpb : o.previewBefore = .ok pb)
    (hpa : o.previewAfter = .ok pa) :
    handler env true true payload o db now =
      ⟨.success,
       updateIssue
         (updateIssue (saveIssue db (freshRecord pi now)) pi.issueNumber
           ⟨none, none, some .processing⟩ now)
         pi.issueNumber
         ⟨some pair.before.id, some pair.after.id, some .completed⟩ now,
       [.createPair, .setupApp false, .runClaude, .setupApp true,
        .getPreview false, .getPreview true, .createPR]⟩ := by
  cases hcpr : o.createPR with
  | error e =>
    simp [handler, hsec, hdk, hak, hgt, hopen, hparse, hvalid, hcp, hsb, hrc,
      hsa, hpb, hpa, hcpr]
  | ok pr =>
    simp [handler, hsec, hdk, hak, hgt, hopen, hparse, hvalid, hcp, hsb, hrc,
      hsa, hpb, hpa, hcpr]

/-- Reduction of the handler when the agent stage rejects: the error falls
to the outer catch, which answers 500 and performs NO store update — the
record is left exactly as the `processing` transition wrote it. -/
theorem handler_agent_failure_eq (env : HandlerEnv) (payload : WebhookPayload)
    (o : PipelineOracle) (db : DB) (now : Nat) (pi : ParsedIssue)
    (pair : SandboxPair) (sk dk ak e : String)
    (hsec : env.webhookSecret = some sk)
    (hdk : env.daytonaApiKey = some dk)
    (hak : env.anthropicApiKey = some ak)
    (hopen : isIssueOpenedEvent payload = true)
    (hparse : parseIssue payload = .ok pi)
    (hvalid : validateParsedIssue pi = true)
    (hcp : o.createPair = .ok pair)
    (hsb : o.setupBefore = .ok ())
    (hrc : o.runClaude = .error e) :
    handler env true true payload o db now =
      ⟨.serverError e,
       updateIssue (saveIssue db (freshRecord pi now)) pi.issueNumber
         ⟨none, none, some .processing⟩ now,
       [.createPair, .setupApp false, .runClaude]⟩ := by
  simp [handler, hsec, hdk, hak, hopen, hparse, hvalid, hcp, hsb, hrc]

/-- C1 counterexample: with a `processing` record already stored for
issue 5, a second "opened" event for issue 5 is NOT a no-op: the handler
creates another environment pair and overwrites the stored record. -/
theorem duplicate_event_not_noop :
    Effect.createPair ∈
      (handler envX true true payloadX oracleOkX [(5, oldRecX)] 99).effects
    ∧ dbGet (handler envX true true payloadX oracleOkX [(5, oldRecX)] 99).db 5 ≠
        some oldRecX := by
  decide

/-- C1 (amended): the handler never consults the store before acting: for
EVERY prior store contents — in particular when a non-terminal (pending or
processing) record exists for the issue number — a further "opened" event
for that issue runs the whole pipeline again, creating a second
environment pair, and overwrites the stored record with a fresh completed
one, so a non-terminal old record is never left unchanged. -/
theorem duplicate_event_overwrites_and_recreates
    (env : HandlerEnv) (payload : WebhookPayload) (o : PipelineOracle)
    (db : DB) (now : Nat) (pi : ParsedIssue) (pair : SandboxPair)
    (old : InMemoryIssue) (sk dk ak gt s : String) (pb pa : PreviewInfo)
    (hsec : env.webhookSecret = some sk)
    (hdk : env.daytonaApiKey = some dk)
    (hak : env.anthropicApiKey = some ak)
    (hgt : env.githubToken = some gt)
    (hopen : isIssueOpenedEvent payload = true)
    (hparse : parseIssue payload = .ok pi)
    (hvalid : validateParsedIssue pi = true)
    (hcp : o.createPair = .ok pair)
    (hsb : o.setupBefore = .ok ())
    (hrc : o.runClaude = .ok s)
    (hsa : o.setupAfter = .ok ())
    (hpb : o.previewBefore = .ok pb)
    (hpa : o.previewAfter = .ok pa)
    (hold : dbGet db pi.issueNumber = some old)
    (holdnt : old.status = .pending ∨ old.status = .processing) :
    Effect.createPair ∈ (handler env true true payload o db now).effects
    ∧ dbGet (handler env true true payload o db now).db pi.issueNumber =
        some ⟨pi.issueNumber, pi.repositoryName, pi.repositoryOwner, pi.title,
          pi.body, some pair.before.id, some pair.after.id, .completed, now, now⟩
    ∧ dbGet (handler env true true payload o db now).db pi.issueNumber ≠
        some old := by
  have he := handler_success_eq env payload o db now pi pair sk dk ak gt s pb pa
    hsec hdk hak hgt hopen hparse hvalid hcp hsb hrc hsa hpb hpa
  rw [he]
  refine ⟨by simp, handler_success_record db pi pair now, ?_⟩
  rw [handler_success_record db pi pair now]
  intro hcontr
  injection hcontr with h2
  rcases holdnt with h | h <;> rw [← h2] at h <;> simp at h

/-- C1 witness: `duplicate_event_overwrites_and_recreates` applied at a
concrete environment, event and store holding a `processing` record. -/
theorem duplicate_event_overwrites_and_recreates_witness :
    Effect.createPair ∈
      (handler envX true true payloadX oracleOkX [(5, oldRecX)] 99).effects
    ∧ dbGet (handler envX true true payloadX oracleOkX [(5, oldRecX)] 99).db 5 ≠
        some oldRecX := by
  have h := duplicate_event_overwrites_and_recreates envX payloadX oracleOkX
    [(5, oldRecX)] 99 parsedIssueX pairX oldRecX "sec" "dk" "ak" "gt" "out"
    ⟨"bu", "bt"⟩ ⟨"au", "at"⟩ rfl rfl rfl rfl (by decide) rfl (by decide)
    rfl rfl rfl rfl rfl rfl (by decide) (Or.inr rfl)
  exact ⟨h.1, h.2.2⟩

/-- C3 counterexample: when the agent stage rejects (timeout), the stored
record for issue 5 is left at `processing` — not `failed` — and no
environment ids are retrievable from it; when the PR-creation step fails,
the handler answers success and the record ends `completed` — not
`failed`.  (`InMemoryIssue` has no stage field at all.) -/
theorem agent_and_push_failure_statuses_cex :
    (dbGet (handler envX true true payloadX oracleAgentFailX [] 99).db 5).map
        (fun r => r.status) = some .processing
    ∧ (dbGet (handler envX true true payloadX oracleAgentFailX [] 99).db 5).map
        (fun r => r.beforeWorkspaceId) = some none
    ∧ (dbGet (handler envX true true payloadX oracleAgentFailX [] 99).db 5).map
        (fun r => r.afterWorkspaceId) = some none
    ∧ (handler envX true true payloadX oraclePRFailX [] 99).response = .success
    ∧ (dbGet (handler envX true true payloadX oraclePRFailX [] 99).db 5).map
        (fun r => r.status) = some .completed := by
  decide

/-- C3 (amended): after a run enters `processing`, a thrown failure of the
agent stage leaves the stored record at status `processing` (the outer
catch performs no store update), with no failing-stage name recorded (the
record has no stage field) and with both environment ids still unset, and
no publication is attempted; a failure of the push/PR-creation step is
swallowed inline, the run is marked `completed` — never `failed` — and
the handler answers success. -/
theorem stage_failure_statuses
    (env : HandlerEnv) (payload : WebhookPayload) (o₁ o₂ : PipelineOracle)
    (db : DB) (now : Nat) (pi : ParsedIssue) (pair : SandboxPair)
    (sk dk ak gt s e e₂ : String) (pb pa : PreviewInfo)
    (hsec : env.webhookSecret = some sk)
    (hdk : env.daytonaApiKey = some dk)
    (hak : env.anthropicApiKey = some ak)
    (hgt : env.githubToken = some gt)
    (hopen : isIssueOpenedEvent payload = true)
    (hparse : parseIssue payload = .ok pi)
    (hvalid : validateParsedIssue pi = true)
    (hcp₁ : o₁.createPair = .ok pair)
    (hsb₁ : o₁.setupBefore = .ok ())
    (hrc₁ : o₁.runClaude = .error e)
    (hcp₂ : o₂.createPair = .ok pair)
    (hsb₂ : o₂.setupBefore = .ok ())
    (hrc₂ : o₂.runClaude = .ok s)
    (hsa₂ : o₂.setupAfter = .ok ())
    (hpb₂ : o₂.previewBefore = .ok pb)
    (hpa₂ : o₂.previewAfter = .ok pa)
    (hcpr₂ : o₂.createPR = .error e₂) :
    ((handler env true true payload o₁ db now).response = .serverError e
     ∧ (dbGet (handler env true true payload o₁ db now).db pi.issueNumber).map
         (fun r => r.status) = some .processing
     ∧ (dbGet (handler env true true payload o₁ db now).db pi.issueNumber).map
         (fun r => r.beforeWorkspaceId) = some none
     ∧ (dbGet (handler env true true payload o₁ db now).db pi.issueNumber).map
         (fun r => r.afterWorkspaceId) = some none
     ∧ Effect.createPR ∉ (handler env true true payload o₁ db now).effects)
    ∧ ((handler env true true payload o₂ db now).response = .success
     ∧ (dbGet (handler env true true payload o₂ db now).db pi.issueNumber).map
         (fun r => r.status) = some .completed
     ∧ Effect.createPR ∈ (handler env true true payload o₂ db now).effects) := by
  have ha := handler_agent_failure_eq env payload o₁ db now pi pair sk dk ak e
    hsec hdk hak hopen hparse hvalid hcp₁ hsb₁ hrc₁
  have hb := handler_success_eq env payload o₂ db now pi pair sk dk ak gt s pb pa
    hsec hdk hak hgt hopen hparse hvalid hcp₂ hsb₂ hrc₂ hsa₂ hpb₂ hpa₂
  constructor
  · rw [ha]
    have hrec : dbGet (updateIssue (saveIssue db (freshRecord pi now))
        pi.issueNumber ⟨none, none, some .processing⟩ now) pi.issueNumber =
        some (applyUpdate (freshRecord pi now) ⟨none, none, some .processing⟩ now) :=
      dbGet_updateIssue_of_get _ _ _ _ _ (dbGet_dbSet_self db pi.issueNumber _)
    refine ⟨rfl, ?_, ?_, ?_, by simp⟩ <;>
      rw [hrec] <;> simp [applyUpdate, freshRecord]
  · rw [hb]
    refine ⟨rfl, ?_, by simp⟩
    rw [handler_success_record db pi pair now]
    simp

/-- C3 witness: `stage_failure_statuses` applied at a concrete event with
the agent-timeout oracle and the PR-failure oracle. -/
theorem stage_failure_statuses_witness :
    (handler envX true true payloadX oracleAgentFailX [] 99).response =
      .serverError "timeout"
    ∧ (handler envX true true payloadX oraclePRFailX [] 99).response = .success := by
  have h := stage_failure_statuses envX payloadX oracleAgentFailX oraclePRFailX
    [] 99 parsedIssueX pairX "sec" "dk" "ak" "gt" "out" "timeout"
    "bad credentials" ⟨"bu", "bt"⟩ ⟨"au", "at"⟩ rfl rfl rfl rfl (by decide) rfl
    (by decide) rfl rfl rfl rfl rfl rfl rfl rfl rfl rfl
  exact ⟨h.1.1, h.2.1⟩

/-- C5 counterexample: an event with `action = "opened"` and a JSON-null
issue object is NOT answered with the 200 "ignored" outcome: the guard
`payload.issue !== undefined` lets `null` through, the subsequent property
access throws, and the handler answers 500 (no pipeline is started). -/
theorem null_issue_not_ignored :
    (handler envX true true payloadNullIssueX oracleOkX [] 99).response ≠ .ignored
    ∧ (handler envX true true payloadNullIssueX oracleOkX [] 99).response =
        .serverError "TypeError"
    ∧ (handler envX true true payloadNullIssueX oracleOkX [] 99).effects = [] := by
  decide

/-- C5 (amended): events whose action is not "opened" or whose issue
property is ABSENT (undefined) are ignored with a 200 "ignored" response,
the store untouched and no pipeline effect issued; but an event with
action "opened" and an explicitly null issue passes the guard and ends in
a 500 error response (thrown TypeError), also with no pipeline started. -/
theorem nonopened_ignored_null_throws
    (env : HandlerEnv) (payload : WebhookPayload) (o : PipelineOracle)
    (db : DB) (now : Nat) (sk : String)
    (hsec : env.webhookSecret = some sk) :
    ((payload.action ≠ "opened" ∨ payload.issue = .undef) →
      handler env true true payload o db now = ⟨.ignored, db, []⟩)
    ∧ (payload.action = "opened" → payload.issue = .null →
      handler env true true payload o db now =
        ⟨.serverError "TypeError", db, []⟩) := by
  constructor
  · intro h
    have hguard : isIssueOpenedEvent payload = false := by
      rcases h with h | h
      · simp [isIssueOpenedEvent, h]
      · simp [isIssueOpenedEvent, h]
    simp [handler, hsec, hguard]
  · intro ha hi
    have hguard : isIssueOpenedEvent payload = true := by
      simp [isIssueOpenedEvent, ha, hi]
    simp [handler, hsec, hguard, parseIssue, hi]

/-- C5 witness: `nonopened_ignored_null_throws` applied to a concrete
"closed" event (ignored) and a concrete null-issue "opened" event
(500). -/
theorem nonopened_ignored_null_throws_witness :
    handler envX true true payloadClosedX oracleOkX [] 99 = ⟨.ignored, [], []⟩
    ∧ handler envX true true payloadNullIssueX oracleOkX [] 99 =
        ⟨.serverError "TypeError", [], []⟩ :=
  ⟨(nonopened_ignored_null_throws envX payloadClosedX oracleOkX [] 99 "sec"
      rfl).1 (Or.inl (by decide)),
   (nonopened_ignored_null_throws envX payloadNullIssueX oracleOkX [] 99 "sec"
      rfl).2 rfl rfl⟩

/-- C4 counterexample: with a provisioner that creates the BEFORE sandbox
but rejects the AFTER creation, `createSandboxPair` rethrows the raw
error: the caller receives no handle at all, so the successfully created
BEFORE sandbox is NOT surfaced as a partial result. -/
theorem after_failure_discards_before_handle :
    createAfterFailsX (beforeOptionsFor parsedIssueX 1) =
      .ok ⟨"before-id", "before-name"⟩
    ∧ (createSandboxPair createAfterFailsX parsedIssueX "key" 1).1 = .error "boom"
    ∧ surfacedSandboxes (createSandboxPair createAfterFailsX parsedIssueX "key" 1).1 =
        [] := by
  exact ⟨rfl, rfl, rfl⟩

/-- C4 (amended): failure of the BEFORE creation aborts the pair with no
AFTER attempt; but when the AFTER creation fails after BEFORE succeeded,
the error is rethrown unchanged and the caller receives NO handle — the
BEFORE environment is silently orphaned rather than surfaced as a partial
result (its id is recorded nowhere; the run store is only written at
pipeline completion). -/
theorem pair_failure_handling
    (create : CreateOptions → Except String CreatedSandbox)
    (issue : ParsedIssue) (key : String) (ts : Nat) :
    (∀ e, create (beforeOptionsFor issue ts) = .error e →
      createSandboxPair create issue key ts = (.error e, [beforeOptionsFor issue ts]))
    ∧ (∀ wb e, create (beforeOptionsFor issue ts) = .ok wb →
        create (afterOptionsFor issue key ts) = .error e →
        (createSandboxPair create issue key ts).1 = .error e
        ∧ surfacedSandboxes (createSandboxPair create issue key ts).1 = []) := by
  constructor
  · intro e he
    simp [createSandboxPair, he]
  · intro wb e hb ha
    simp [createSandboxPair, hb, ha, surfacedSandboxes]

/-- C4 witness: `pair_failure_handling` applied to a provisioner failing
the BEFORE creation and to one failing only the AFTER creation. -/
theorem pair_failure_handling_witness :
    createSandboxPair (fun _ => .error "bfail") parsedIssueX "key" 1 =
      (.error "bfail", [beforeOptionsFor parsedIssueX 1])
    ∧ surfacedSandboxes
        (createSandboxPair createAfterFailsX parsedIssueX "key" 1).1 = [] :=
  ⟨(pair_failure_handling (fun _ => .error "bfail") parsedIssueX "key" 1).1
      "bfail" rfl,
   ((pair_failure_handling createAfterFailsX parsedIssueX "key" 1).2
      ⟨"before-id", "before-name"⟩ "boom" rfl rfl).2⟩

/-- C10: every creation attempt issued by `createSandboxPair` — the BEFORE
one, and the AFTER one when reached — carries `public: true` in its
creation options: both sandboxes of every pair are created publicly
accessible. -/
theorem all_sandboxes_created_public
    (create : CreateOptions → Except String CreatedSandbox)
    (issue : ParsedIssue) (key : String) (ts : Nat) :
    ∀ o ∈ (createSandboxPair create issue key ts).2, o.«public» = true := by
  intro o ho
  cases hc : create (beforeOptionsFor issue ts) with
  | error e =>
    simp [createSandboxPair, hc] at ho
    subst ho; rfl
  | ok wb =>
    cases hc2 : create (afterOptionsFor issue key ts) with
    | error e =>
      simp [createSandboxPair, hc, hc2] at ho
      rcases ho with h | h <;> subst h <;> rfl
    | ok wa =>
      simp [createSandboxPair, hc, hc2] at ho
      rcases ho with h | h <;> subst h <;> rfl

/-- C10 witness: `all_sandboxes_created_public` applied to a concrete
provisioner and issue, at the BEFORE options of the produced trace. -/
theorem all_sandboxes_created_public_witness :
    (beforeOptionsFor parsedIssueX 1).«public» = true :=
  all_sandboxes_created_public createOkX parsedIssueX "key" 1
    (beforeOptionsFor parsedIssueX 1) (by decide)

/-- C6 counterexample: when the agent command itself throws (e.g. the SDK
timeout), `runClaudeCodeInSandbox` rethrows at once: the ownership-revert
`chown -R root:root` command is NEVER issued on that path. -/
theorem revert_skipped_on_throw :
    runClaudeCodeInSandbox agentFailOracleX jsonNoneX =
      (.error "timeout", [.chownClaude, .execClaude])
    ∧ AgentEffect.chownRoot ∉ (runClaudeCodeInSandbox agentFailOracleX jsonNoneX).2 :=
  ⟨rfl, by decide⟩

/-- C6 (amended): the ownership revert is issued whenever the agent
command RETURNS — any exit code, parse success or failure — but when the
command execution throws, the error is rethrown before the revert, so the
revert is NOT issued on the exception path (the acquire/release pairing is
broken exactly there). -/
theorem chown_revert_only_when_command_returns {α : Type}
    (o : AgentOracle) (jsonParse : String → Option α) :
    (∀ r, o.claudeExec = .ok r →
      AgentEffect.chownRoot ∈ (runClaudeCodeInSandbox o jsonParse).2)
    ∧ (∀ e, o.claudeExec = .error e →
      runClaudeCodeInSandbox o jsonParse = (.error e, [.chownClaude, .execClaude])) := by
  constructor
  · intro r hr
    simp [runClaudeCodeInSandbox, hr]
  · intro e he
    simp [runClaudeCodeInSandbox, he]

/-- C6 witness: `chown_revert_only_when_command_returns` applied to a
returning command (revert issued) and a throwing one (revert absent). -/
theorem chown_revert_only_when_command_returns_witness :
    AgentEffect.chownRoot ∈ (runClaudeCodeInSandbox agentOkOracleX jsonNoneX).2
    ∧ runClaudeCodeInSandbox agentFailOracleX jsonNoneX =
        (.error "timeout", [.chownClaude, .execClaude]) :=
  ⟨(chown_revert_only_when_command_returns agentOkOracleX jsonNoneX).1
      ⟨0, "plain output without payload"⟩ rfl,
   (chown_revert_only_when_command_returns agentFailOracleX jsonNoneX).2
      "timeout" rfl⟩

/-- C9: when the agent command returns output containing no parseable
brace-delimited JSON payload — no brace span at all, or a span the JSON
parser rejects — the runner does not raise: it returns the degraded
result carrying the FULL raw output and the parse-failure warning, and
execution continues through the ownership revert (the pipeline proceeds
past the agent stage). -/
theorem parse_failure_degrades_not_raises {α : Type}
    (o : AgentOracle) (jsonParse : String → Option α) (r : CommandResult)
    (hok : o.claudeExec = .ok r) :
    (extractBraceSpan r.result.data = none →
      runClaudeCodeInSandbox o jsonParse =
        (.ok (.degraded r.result "Could not parse JSON response" r.exitCode),
         [.chownClaude, .execClaude, .chownRoot]))
    ∧ (∀ span, extractBraceSpan r.result.data = some span →
        jsonParse (String.mk span) = none →
        runClaudeCodeInSandbox o jsonParse =
          (.ok (.degraded r.result "Could not parse JSON response" r.exitCode),
           [.chownClaude, .execClaude, .chownRoot])) := by
  constructor
  · intro hn
    simp [runClaudeCodeInSandbox, hok, parseClaudeOutput, hn]
  · intro span hs hp
    simp [runClaudeCodeInSandbox, hok, parseClaudeOutput, hs, hp]

/-- C9 witness: `parse_failure_degrades_not_raises` applied to a command
whose output has no brace-delimited payload. -/
theorem parse_failure_degrades_not_raises_witness :
    runClaudeCodeInSandbox agentOkOracleX jsonNoneX =
      (.ok (.degraded "plain output without payload"
        "Could not parse JSON response" 0),
       [.chownClaude, .execClaude, .chownRoot]) :=
  (parse_failure_degrades_not_raises agentOkOracleX jsonNoneX
    ⟨0, "plain output without payload"⟩ rfl).1 (by decide)

/-- C8: when `git status --short` reports no changes, publication still
succeeds with the staging and commit steps skipped (never issued), and the
PR body sent by the generated script contains the explicit
"No code changes detected" summary; when changes exist, `git add -A` is
issued and a commit is made whose message references the issue number
(`Fixes #N`). -/
theorem publish_no_changes_and_changes
    (o₁ o₂ : PublishOracle) (prParse : String → Option PRResult)
    (n : Nat) (title dflt bu au bt atk s₂ : String)
    (out₁ out₂ : String) (span₁ span₂ : List Char) (pr₁ pr₂ : PRResult)
    (d₂ : String)
    (h11 : o₁.configUser = .ok ()) (h12 : o₁.checkoutDefault = .ok ())
    (h13 : o₁.statusResult = .ok "") (h15 : o₁.checkoutBranch = .ok ())
    (h16 : o₁.setRemote = .ok ()) (h17 : o₁.push = .ok ())
    (h18 : o₁.uploadScript = .ok ()) (h19 : o₁.runScript = .ok out₁)
    (h110 : extractBraceSpan out₁.data = some span₁)
    (h111 : prParse (String.mk span₁) = some pr₁)
    (h21 : o₂.configUser = .ok ()) (h22 : o₂.checkoutDefault = .ok ())
    (h23 : o₂.statusResult = .ok s₂) (h24 : jsTrim s₂ ≠ "")
    (h25 : o₂.checkoutBranch = .ok ()) (h26 : o₂.addAll = .ok ())
    (h27 : o₂.commit = .ok ()) (h28 : o₂.setRemote = .ok ())
    (h29 : o₂.push = .ok ()) (h210 : o₂.diffStat = .ok d₂)
    (h211 : o₂.uploadScript = .ok ()) (h212 : o₂.runScript = .ok out₂)
    (h213 : extractBraceSpan out₂.data = some span₂)
    (h214 : prParse (String.mk span₂) = some pr₂) :
    ((createBranchAndPR o₁ prParse n title dflt bu au bt atk).1 = .ok pr₁
     ∧ GitStep.addAll ∉ (createBranchAndPR o₁ prParse n title dflt bu au bt atk).2
     ∧ (∀ m, GitStep.commit m ∉
         (createBranchAndPR o₁ prParse n title dflt bu au bt atk).2)
     ∧ GitStep.runScript (prBodyPre n ++ noChangesSummary ++
         prBodyPost n bu bt au atk)
         ∈ (createBranchAndPR o₁ prParse n title dflt bu au bt atk).2)
    ∧ ((createBranchAndPR o₂ prParse n title dflt bu au bt atk).1 = .ok pr₂
     ∧ GitStep.addAll ∈ (createBranchAndPR o₂ prParse n title dflt bu au bt atk).2
     ∧ GitStep.commit (commitMessageFor n title) ∈
         (createBranchAndPR o₂ prParse n title dflt bu au bt atk).2
     ∧ (commitMessageFor n title).data =
         ("AutoFix: " ++ title ++ "\n\nFixes ").data ++
           ("#" ++ Nat.repr n).data ++
           "\n\nThis PR was automatically generated by AutoFixer.".data) := by
  constructor
  · have htrim : jsTrim "" = "" := rfl
    refine ⟨?_, ?_, ?_, ?_⟩ <;>
      simp [createBranchAndPR, h11, h12, h13, h15, h16, h17, h18, h19, h110,
        h111, htrim, prBodyFor]
  · refine ⟨?_, ?_, ?_, ?_⟩
    · simp [createBranchAndPR, h21, h22, h23, h24, h25, h26, h27, h28, h29,
        h210, h211, h212, h213, h214]
    · simp [createBranchAndPR, h21, h22, h23, h24, h25, h26, h27, h28, h29,
        h210, h211, h212, h213, h214]
    · simp [createBranchAndPR, h21, h22, h23, h24, h25, h26, h27, h28, h29,
        h210, h211, h212, h213, h214]
    · simp [commitMessageFor]

/-- C8 witness: `publish_no_changes_and_changes` applied to concrete
all-success oracles, one with an empty status output and one with a
modified file. -/
theorem publish_no_changes_and_changes_witness :
    (createBranchAndPR publishNoChangesX prParseX 5 "Crash" "main"
      "bu" "au" "bt" "atk").1 = .ok prX
    ∧ GitStep.addAll ∉ (createBranchAndPR publishNoChangesX prParseX 5 "Crash"
        "main" "bu" "au" "bt" "atk").2
    ∧ GitStep.addAll ∈ (createBranchAndPR publishChangesX prParseX 5 "Crash"
        "main" "bu" "au" "bt" "atk").2
    ∧ GitStep.commit (commitMessageFor 5 "Crash") ∈
        (createBranchAndPR publishChangesX prParseX 5 "Crash" "main"
          "bu" "au" "bt" "atk").2 := by
  have h := publish_no_changes_and_changes publishNoChangesX publishChangesX
    prParseX 5 "Crash" "main" "bu" "au" "bt" "atk" " M file.ts\n"
    "\x7bok\x7d" "\x7bok\x7d" "\x7bok\x7d".data "\x7bok\x7d".data prX prX "diff"
    rfl rfl rfl rfl rfl rfl rfl rfl (by decide) (by decide)
    rfl rfl rfl (by decide) rfl rfl rfl rfl rfl rfl rfl rfl
    (by decide) (by decide)
  exact ⟨h.1.1, h.1.2.1, h.2.2.1, h.2.2.2.1⟩
